import Mathlib

/-!
# GOST 34.10-12 signing wrapper (`crypto.go`)

A shallow embedding of the Go package `crypto`, a thin wrapper around a native
PKCS#7 engine reached through cgo.  The native engine is external to the
package, so it is a parameter: an `Engine σ` is an arbitrary family of
transition functions over an arbitrary engine state `σ`.  The package-level
variables and the engine state are threaded explicitly through a `World σ`,
which also records, in call order, every native call the wrapper makes.
-/

namespace Gost

/-! ## Data model -/

/-- A byte of a Go `string` / `[]byte`. -/
abbrev Byte := UInt8

/-- A non-null native signing context pointer (`GetSignCTX` result). -/
abbrev Ctx := Nat

/-- Go conversion of an `int` to the 32-bit signed `C.int`: wraps modulo `2^32`. -/
def toCInt (n : Int) : Int := (n + 2147483648) % 4294967296 - 2147483648

/-- Errors of `github.com/juju/errors` as the package builds them:
`errors.New(msg)` and `errors.Annotate(err, msg)` / `errors.Annotatef`. -/
inductive GoError where
  | new (msg : String)
  | annotate (err : GoError) (msg : String)
  deriving DecidableEq, Repr

/-- The text of `err.Error()`: an annotation is printed in front of the error
it wraps, separated by `": "`. -/
def GoError.Error : GoError → String
  | .new msg => msg
  | .annotate err msg => msg ++ ": " ++ err.Error

/-- The relation `e.Wraps inner`: `inner` is `e` itself or lies under its annotations. -/
def GoError.Wraps : GoError → GoError → Prop
  | .new msg, inner => inner = .new msg
  | .annotate err msg, inner => inner = .annotate err msg ∨ err.Wraps inner

/-- Go `%d` of a C status code. -/
def fmtInt (n : Int) : String := toString n

/-- How a Go call ends: it returns a value, or it does not return normally
(a run-time panic such as `makeslice: len out of range`, or a read past the
end of a native buffer). -/
inductive Outcome (α : Type) where
  | ret (v : α)
  | panic
  deriving DecidableEq, Repr

/-- What `SignBufferEx` leaves behind: its status, the bytes now behind the
output pointer `*cbuf`, and the value now in the length cell `*bufLenC`. -/
structure SignReply where
  status : Int
  buf : List Byte
  len : Int
  deriving DecidableEq, Repr

/-- The native engine (`mespro.h`), with an arbitrary state `σ`.  Every
operation may read and change the engine state; a status is a C `int`. -/
structure Engine (σ : Type) where
  BY_FILE : Int
  PKCS7Init : String → Int → σ → Int × σ
  PKCS7Final : σ → σ
  SetDigestAlgorithm : String → σ → σ
  InsertCertificateToSign : Int → σ → σ
  InsertSigningTimeToSign : Int → σ → σ
  AddPSEPrivateKey : String → σ → Int × σ
  AddCAs : String → σ → Int × σ
  AddCRLs : String → σ → Int × σ
  GetSignCTX : σ → Option Ctx × σ
  AddSigner : Ctx → Int → String → σ → Int × σ
  SignBufferEx : Ctx → List Byte → Int → List Byte → Int → Int → σ → SignReply × σ
  CheckBufferSignEx : Ctx → List Byte → Int → List Byte → Int → σ → Int × σ
  FreeSignCTX : Ctx → σ → σ

/-- One native call as the wrapper issued it, with its arguments and result. -/
inductive Call where
  | PKCS7Init (path : String) (flag : Int) (status : Int)
  | PKCS7Final
  | SetDigestAlgorithm (name : String)
  | InsertCertificateToSign (flag : Int)
  | InsertSigningTimeToSign (flag : Int)
  | AddPSEPrivateKey (path : String) (status : Int)
  | AddCAs (dir : String) (status : Int)
  | AddCRLs (dir : String) (status : Int)
  | GetSignCTX (ctx : Option Ctx)
  | AddSigner (ctx : Ctx) (kind : Int) (path : String) (status : Int)
  | SignBufferEx (ctx : Ctx) (data : List Byte) (dataLen : Int) (bufIn : List Byte)
      (lenIn : Int) (flag : Int) (reply : SignReply)
  | CheckBufferSignEx (ctx : Ctx) (sig : List Byte) (sigLen : Int) (data : List Byte)
      (dataLen : Int) (status : Int)
  | FreeSignCTX (ctx : Ctx)
  deriving DecidableEq, Repr

/-- The package state: the six package-level path variables, the state of the
native engine, and the native calls made so far (oldest first). -/
structure World (σ : Type) where
  eng : σ
  rootDir : String
  containerDir : String
  caDir : String
  certSenderPath : String
  certRecieverPath : String
  crlDir : String
  trace : List Call

/-- The six package-level path variables of a world. -/
structure Config where
  rootDir : String
  containerDir : String
  caDir : String
  certSenderPath : String
  certRecieverPath : String
  crlDir : String
  deriving DecidableEq, Repr

/-- The values of the six path variables in `w`. -/
def World.config {σ : Type} (w : World σ) : Config :=
  ⟨w.rootDir, w.containerDir, w.caDir, w.certSenderPath, w.certRecieverPath, w.crlDir⟩

/-- A process that has just started: all six path variables hold the empty
string and no native call has been made. -/
def World.fresh {σ : Type} (s : σ) : World σ :=
  ⟨s, "", "", "", "", "", "", []⟩

/-! ## Native calls through cgo -/

section calls
variable {σ : Type}

/-- The native call `C.PKCS7Init(path, flag)`. -/
@[simp]
def cPKCS7Init (E : Engine σ) (path : String) (flag : Int) (w : World σ) : Int × World σ :=
  let r := E.PKCS7Init path flag w.eng
  (r.1, { w with eng := r.2, trace := w.trace ++ [Call.PKCS7Init path flag r.1] })

/-- The native call `C.PKCS7Final()`. -/
@[simp]
def cPKCS7Final (E : Engine σ) (w : World σ) : World σ :=
  { w with eng := E.PKCS7Final w.eng, trace := w.trace ++ [Call.PKCS7Final] }

/-- The native call `C.SetDigestAlgorithm(name)`. -/
@[simp]
def cSetDigestAlgorithm (E : Engine σ) (name : String) (w : World σ) : World σ :=
  { w with eng := E.SetDigestAlgorithm name w.eng,
           trace := w.trace ++ [Call.SetDigestAlgorithm name] }

/-- The native call `C.InsertCertificateToSign(flag)`. -/
@[simp]
def cInsertCertificateToSign (E : Engine σ) (flag : Int) (w : World σ) : World σ :=
  { w with eng := E.InsertCertificateToSign flag w.eng,
           trace := w.trace ++ [Call.InsertCertificateToSign flag] }

/-- The native call `C.InsertSigningTimeToSign(flag)`. -/
@[simp]
def cInsertSigningTimeToSign (E : Engine σ) (flag : Int) (w : World σ) : World σ :=
  { w with eng := E.InsertSigningTimeToSign flag w.eng,
           trace := w.trace ++ [Call.InsertSigningTimeToSign flag] }

/-- The native call `C.AddPSEPrivateKey(path, nil)`. -/
@[simp]
def cAddPSEPrivateKey (E : Engine σ) (path : String) (w : World σ) : Int × World σ :=
  let r := E.AddPSEPrivateKey path w.eng
  (r.1, { w with eng := r.2, trace := w.trace ++ [Call.AddPSEPrivateKey path r.1] })

/-- The native call `C.AddCAs(dir)`. -/
@[simp]
def cAddCAs (E : Engine σ) (dir : String) (w : World σ) : Int × World σ :=
  let r := E.AddCAs dir w.eng
  (r.1, { w with eng := r.2, trace := w.trace ++ [Call.AddCAs dir r.1] })

/-- The native call `C.AddCRLs(dir)`. -/
@[simp]
def cAddCRLs (E : Engine σ) (dir : String) (w : World σ) : Int × World σ :=
  let r := E.AddCRLs dir w.eng
  (r.1, { w with eng := r.2, trace := w.trace ++ [Call.AddCRLs dir r.1] })

/-- The native call `C.GetSignCTX()`; `none` is the null pointer. -/
@[simp]
def cGetSignCTX (E : Engine σ) (w : World σ) : Option Ctx × World σ :=
  let r := E.GetSignCTX w.eng
  (r.1, { w with eng := r.2, trace := w.trace ++ [Call.GetSignCTX r.1] })

/-- The native call `C.AddSigner(ctx, kind, path, nil)`. -/
@[simp]
def cAddSigner (E : Engine σ) (ctx : Ctx) (kind : Int) (path : String) (w : World σ) :
    Int × World σ :=
  let r := E.AddSigner ctx kind path w.eng
  (r.1, { w with eng := r.2, trace := w.trace ++ [Call.AddSigner ctx kind path r.1] })

/-- The native call `C.SignBufferEx(ctx, data, dataLen, &cbuf, &bufLenC, flag)` with `bufIn`
behind `cbuf` and `lenIn` in `bufLenC` on entry. -/
@[simp]
def cSignBufferEx (E : Engine σ) (ctx : Ctx) (data : List Byte) (dataLen : Int)
    (bufIn : List Byte) (lenIn : Int) (flag : Int) (w : World σ) : SignReply × World σ :=
  let r := E.SignBufferEx ctx data dataLen bufIn lenIn flag w.eng
  (r.1, { w with eng := r.2,
                 trace := w.trace ++ [Call.SignBufferEx ctx data dataLen bufIn lenIn flag r.1] })

/-- The native call `C.CheckBufferSignEx(ctx, sig, sigLen, nil, nil, 0, data, dataLen)`. -/
@[simp]
def cCheckBufferSignEx (E : Engine σ) (ctx : Ctx) (sig : List Byte) (sigLen : Int)
    (data : List Byte) (dataLen : Int) (w : World σ) : Int × World σ :=
  let r := E.CheckBufferSignEx ctx sig sigLen data dataLen w.eng
  (r.1, { w with eng := r.2,
                 trace := w.trace ++ [Call.CheckBufferSignEx ctx sig sigLen data dataLen r.1] })

/-- The native call `C.FreeSignCTX(ctx)`. -/
@[simp]
def cFreeSignCTX (E : Engine σ) (ctx : Ctx) (w : World σ) : World σ :=
  { w with eng := E.FreeSignCTX ctx w.eng, trace := w.trace ++ [Call.FreeSignCTX ctx] }

end calls

/-! ## Go run-time helpers -/

/-- The function `make([]byte, n)` for a `C.int` length: panics on a negative length. -/
def makeBytes (n : Int) : Outcome (List Byte) :=
  if n < 0 then .panic else .ret (List.replicate n.toNat 0)

/-- The function `C.GoBytes(p, n)`: the first `n` bytes behind `p`.  A negative `n` panics;
a length past the end of the buffer behind `p` does not return normally. -/
def GoBytes (buf : List Byte) (n : Int) : Outcome (List Byte) :=
  if n < 0 then .panic
  else if buf.length < n.toNat then .panic
  else .ret (buf.take n.toNat)

/-- The self-check text `"Hello world!"` as bytes. -/
def helloWorld : List Byte := [72, 101, 108, 108, 111, 32, 119, 111, 114, 108, 100, 33]

/-! ## The package functions -/

section package
variable {σ : Type}

/-- The function `GetSignAlgoString`: the fixed algorithm name; no native call, no write. -/
def GetSignAlgoString (w : World σ) : String × World σ :=
  ("GOST3410-12-512", w)

/-- The function `FreeCryptoVars`: a single `C.PKCS7Final()`. -/
def FreeCryptoVars (E : Engine σ) (w : World σ) : World σ :=
  cPKCS7Final E w

/-- The function `MakeSignatureFromString(text)`: returns `(signature, error)`. -/
def MakeSignatureFromString (E : Engine σ) (text : List Byte) (w : World σ) :
    Outcome (List Byte × Option GoError) × World σ :=
  let w1 := cSetDigestAlgorithm E "MP_HASH_ALG_NAME_GOST_2012_512" w
  let w2 := cInsertCertificateToSign E 0 w1
  let w3 := cInsertSigningTimeToSign E 0 w2
  let key := cAddPSEPrivateKey E w3.containerDir w3
  if key.1 ≠ 0 then
    (.ret ([], some (.annotate (.new "external call AddPSEPrivateKey")
      "Failed to add private key")), key.2)
  else
  let cas := cAddCAs E key.2.caDir key.2
  if cas.1 ≠ 0 then
    (.ret ([], some (.annotate (.new "external call AddCAs")
      "Failed to add certificate authority")), cas.2)
  else
  let got := cGetSignCTX E cas.2
  match got.1 with
  | none =>
    (.ret ([], some (.annotate (.new "external call GetSignCTX")
      "Failed to creat signature context")), got.2)
  | some sgnCtx =>
  let signer := cAddSigner E sgnCtx E.BY_FILE got.2.certSenderPath got.2
  if signer.1 ≠ 0 then
    (.ret ([], some (.annotate (.new "external call AddSigner")
      "Failed to add signer to contex")), signer.2)
  else
  let probe := cSignBufferEx E sgnCtx text 0 [] 0 1 signer.2
  if probe.1.status ≠ 0 ∧ probe.1.status ≠ 160 then
    (.ret ([], some (.annotate (.new "external call SignBufferEx error")
      ("Failed to calculate buffer size: error - " ++ fmtInt probe.1.status))), probe.2)
  else
  match makeBytes probe.1.len with
  | .panic => (.panic, probe.2)
  | .ret buf =>
  let second := cSignBufferEx E sgnCtx text (toCInt text.length) buf probe.1.len 1 probe.2
  if second.1.status ≠ 0 then
    (.ret ([], some (.annotate (.new "external call SignBufferEx")
      "Failed to retrieve signature out of context")), second.2)
  else
  let w4 := cFreeSignCTX E sgnCtx second.2
  match GoBytes second.1.buf second.1.len with
  | .panic => (.panic, w4)
  | .ret retString => (.ret (retString, none), w4)

/-- The function `CheckSignatureByString(text, sig)`: returns `(ok, error)`. -/
def CheckSignatureByString (E : Engine σ) (text sig : List Byte) (w : World σ) :
    (Bool × Option GoError) × World σ :=
  let cas := cAddCAs E w.caDir w
  if cas.1 ≠ 0 then
    ((false, some (.annotate (.new "external call AddCAs")
      "Failed to add certificate authority")), cas.2)
  else
  let crls := cAddCRLs E cas.2.crlDir cas.2
  if crls.1 ≠ 0 then
    ((false, some (.new "AddCRLs")), crls.2)
  else
  let got := cGetSignCTX E crls.2
  match got.1 with
  | none =>
    ((false, some (.annotate (.new "external call GetSignCTX")
      "Failed to create signature context")), got.2)
  | some sgnCtx =>
  let signer := cAddSigner E sgnCtx E.BY_FILE got.2.certRecieverPath got.2
  if signer.1 ≠ 0 then
    ((false, some (.annotate (.new "external call AddSigner")
      "Failed to add signer to contex")), signer.2)
  else
  let chk := cCheckBufferSignEx E sgnCtx sig (toCInt sig.length) text (toCInt text.length)
    signer.2
  if chk.1 ≠ 0 then
    ((false, some (.annotate (.new "external call CheckBufferSignEx")
      "Failed to check signature out of context")), chk.2)
  else
  ((true, none), cFreeSignCTX E sgnCtx chk.2)

/-- The function `selfCheckVars`: signs `"Hello world!"` and annotates a failure. -/
def selfCheckVars (E : Engine σ) (w : World σ) : Outcome (Option GoError) × World σ :=
  let r := MakeSignatureFromString E helloWorld w
  match r.1 with
  | .panic => (.panic, r.2)
  | .ret (_, some err) =>
    (.ret (some (.annotate err "Failed to self-generate signature")), r.2)
  | .ret (_, none) => (.ret none, r.2)

/-- The six assignments that open `InitCryptoCerts`. -/
def setPaths (root container ca certSender certReciever crl : String) (w : World σ) :
    World σ :=
  { w with rootDir := root, containerDir := container, caDir := ca,
           certSenderPath := certSender, certRecieverPath := certReciever, crlDir := crl }

/-- The function `InitCryptoCerts(root, container, ca, certSender, certReciever, crl)`. -/
def InitCryptoCerts (E : Engine σ) (root container ca certSender certReciever crl : String)
    (w : World σ) : Outcome (Option GoError) × World σ :=
  let w0 := setPaths root container ca certSender certReciever crl w
  let ini := cPKCS7Init E w0.containerDir 0 w0
  if ini.1 ≠ 0 then
    (.ret (some (.annotate (.new "external call PKCS7Init")
      "Failed to initialize crypto pkcs")), ini.2)
  else
  let chk := selfCheckVars E ini.2
  match chk.1 with
  | .panic => (.panic, chk.2)
  | .ret (some err) => (.ret (some (.annotate err "Crypto self-check failed")), chk.2)
  | .ret none => (.ret none, chk.2)

end package

/-! ## Observations on a trace -/

/-- Is the call a `SignBufferEx`? -/
def Call.isSign : Call → Bool
  | .SignBufferEx .. => true
  | _ => false

/-- Is the call a `CheckBufferSignEx`? -/
def Call.isCheck : Call → Bool
  | .CheckBufferSignEx .. => true
  | _ => false

/-- How many times `FreeSignCTX(c)` occurs in a trace. -/
def freesOf (c : Ctx) (t : List Call) : Nat :=
  t.count (Call.FreeSignCTX c)

/-- Contexts handed out by `GetSignCTX` in a trace minus contexts released by
`FreeSignCTX`: the number of live native contexts the trace accounts for. -/
def liveContexts : List Call → Int
  | [] => 0
  | .GetSignCTX (some _) :: t => liveContexts t + 1
  | .FreeSignCTX _ :: t => liveContexts t - 1
  | _ :: t => liveContexts t

/-- A fixed-response engine used for concrete runs.  Its state counts the
`SignBufferEx` calls made so far: call number 0 is answered with `probe`,
later calls with `second`. -/
structure Script where
  initStatus : Int := 0
  keyStatus : Int := 0
  caStatus : Int := 0
  crlStatus : Int := 0
  ctx : Option Ctx := some 1
  signerStatus : Int := 0
  probe : SignReply := ⟨160, [], 2⟩
  second : SignReply := ⟨0, [170, 187], 2⟩
  checkStatus : Int := 0

/-- The engine that answers as the script says. -/
def Script.engine (s : Script) : Engine Nat where
  BY_FILE := 1
  PKCS7Init := fun _ _ n => (s.initStatus, n)
  PKCS7Final := fun n => n
  SetDigestAlgorithm := fun _ n => n
  InsertCertificateToSign := fun _ n => n
  InsertSigningTimeToSign := fun _ n => n
  AddPSEPrivateKey := fun _ n => (s.keyStatus, n)
  AddCAs := fun _ n => (s.caStatus, n)
  AddCRLs := fun _ n => (s.crlStatus, n)
  GetSignCTX := fun n => (s.ctx, n)
  AddSigner := fun _ _ _ n => (s.signerStatus, n)
  SignBufferEx := fun _ _ _ _ _ _ n => (if n = 0 then s.probe else s.second, n + 1)
  CheckBufferSignEx := fun _ _ _ _ _ n => (s.checkStatus, n)
  FreeSignCTX := fun _ n => n

/-- The native calls made between world `w` and the later world `w2`. -/
def callsSince {σ : Type} (w w2 : World σ) : List Call :=
  w2.trace.drop w.trace.length

/-- The three configuration calls that open every signing run. -/
def signSetup : List Call :=
  [.SetDigestAlgorithm "MP_HASH_ALG_NAME_GOST_2012_512", .InsertCertificateToSign 0,
   .InsertSigningTimeToSign 0]

/-- The error `MakeSignatureFromString` returns when the size probe fails with `s`. -/
def probeError (s : Int) : GoError :=
  .annotate (.new "external call SignBufferEx error")
    ("Failed to calculate buffer size: error - " ++ fmtInt s)

/-- The paths through `MakeSignatureFromString`: `MakeRun E text w out evs`
says the call started in `w` ends with outcome `out` after the native calls
`evs`. -/
inductive MakeRun {σ : Type} (E : Engine σ) (text : List Byte) (w : World σ) :
    Outcome (List Byte × Option GoError) → List Call → Prop where
  | keyFailed (s : Int) (hs : s ≠ 0) :
      MakeRun E text w
        (.ret ([], some (.annotate (.new "external call AddPSEPrivateKey")
          "Failed to add private key")))
        (signSetup ++ [.AddPSEPrivateKey w.containerDir s])
  | casFailed (s : Int) (hs : s ≠ 0) :
      MakeRun E text w
        (.ret ([], some (.annotate (.new "external call AddCAs")
          "Failed to add certificate authority")))
        (signSetup ++ [.AddPSEPrivateKey w.containerDir 0, .AddCAs w.caDir s])
  | noContext :
      MakeRun E text w
        (.ret ([], some (.annotate (.new "external call GetSignCTX")
          "Failed to creat signature context")))
        (signSetup ++ [.AddPSEPrivateKey w.containerDir 0, .AddCAs w.caDir 0,
          .GetSignCTX none])
  | signerFailed (c : Ctx) (s : Int) (hs : s ≠ 0) :
      MakeRun E text w
        (.ret ([], some (.annotate (.new "external call AddSigner")
          "Failed to add signer to contex")))
        (signSetup ++ [.AddPSEPrivateKey w.containerDir 0, .AddCAs w.caDir 0,
          .GetSignCTX (some c), .AddSigner c E.BY_FILE w.certSenderPath s])
  | probeFailed (c : Ctx) (p : SignReply) (h0 : p.status ≠ 0) (h160 : p.status ≠ 160) :
      MakeRun E text w (.ret ([], some (probeError p.status)))
        (signSetup ++ [.AddPSEPrivateKey w.containerDir 0, .AddCAs w.caDir 0,
          .GetSignCTX (some c), .AddSigner c E.BY_FILE w.certSenderPath 0,
          .SignBufferEx c text 0 [] 0 1 p])
  | probeLenPanic (c : Ctx) (p : SignReply) (hp : p.status = 0 ∨ p.status = 160)
      (hlen : p.len < 0) :
      MakeRun E text w .panic
        (signSetup ++ [.AddPSEPrivateKey w.containerDir 0, .AddCAs w.caDir 0,
          .GetSignCTX (some c), .AddSigner c E.BY_FILE w.certSenderPath 0,
          .SignBufferEx c text 0 [] 0 1 p])
  | secondFailed (c : Ctx) (p q : SignReply) (hp : p.status = 0 ∨ p.status = 160)
      (hlen : 0 ≤ p.len) (hq : q.status ≠ 0) :
      MakeRun E text w
        (.ret ([], some (.annotate (.new "external call SignBufferEx")
          "Failed to retrieve signature out of context")))
        (signSetup ++ [.AddPSEPrivateKey w.containerDir 0, .AddCAs w.caDir 0,
          .GetSignCTX (some c), .AddSigner c E.BY_FILE w.certSenderPath 0,
          .SignBufferEx c text 0 [] 0 1 p,
          .SignBufferEx c text (toCInt text.length) (List.replicate p.len.toNat 0) p.len 1 q])
  | copyPanic (c : Ctx) (p q : SignReply) (hp : p.status = 0 ∨ p.status = 160)
      (hlen : 0 ≤ p.len) (hq : q.status = 0)
      (hbad : q.len < 0 ∨ q.buf.length < q.len.toNat) :
      MakeRun E text w .panic
        (signSetup ++ [.AddPSEPrivateKey w.containerDir 0, .AddCAs w.caDir 0,
          .GetSignCTX (some c), .AddSigner c E.BY_FILE w.certSenderPath 0,
          .SignBufferEx c text 0 [] 0 1 p,
          .SignBufferEx c text (toCInt text.length) (List.replicate p.len.toNat 0) p.len 1 q,
          .FreeSignCTX c])
  | signed (c : Ctx) (p q : SignReply) (hp : p.status = 0 ∨ p.status = 160)
      (hlen : 0 ≤ p.len) (hq : q.status = 0) (hq0 : 0 ≤ q.len)
      (hfit : q.len.toNat ≤ q.buf.length) :
      MakeRun E text w (.ret (q.buf.take q.len.toNat, none))
        (signSetup ++ [.AddPSEPrivateKey w.containerDir 0, .AddCAs w.caDir 0,
          .GetSignCTX (some c), .AddSigner c E.BY_FILE w.certSenderPath 0,
          .SignBufferEx c text 0 [] 0 1 p,
          .SignBufferEx c text (toCInt text.length) (List.replicate p.len.toNat 0) p.len 1 q,
          .FreeSignCTX c])

/-- The paths through `CheckSignatureByString`: `CheckRun E text sig w out evs`
says the call started in `w` returns `out` after the native calls `evs`. -/
inductive CheckRun {σ : Type} (E : Engine σ) (text sig : List Byte) (w : World σ) :
    Bool × Option GoError → List Call → Prop where
  | casFailed (s : Int) (hs : s ≠ 0) :
      CheckRun E text sig w
        (false, some (.annotate (.new "external call AddCAs")
          "Failed to add certificate authority"))
        [.AddCAs w.caDir s]
  | crlsFailed (s : Int) (hs : s ≠ 0) :
      CheckRun E text sig w (false, some (.new "AddCRLs"))
        [.AddCAs w.caDir 0, .AddCRLs w.crlDir s]
  | noContext :
      CheckRun E text sig w
        (false, some (.annotate (.new "external call GetSignCTX")
          "Failed to create signature context"))
        [.AddCAs w.caDir 0, .AddCRLs w.crlDir 0, .GetSignCTX none]
  | signerFailed (c : Ctx) (s : Int) (hs : s ≠ 0) :
      CheckRun E text sig w
        (false, some (.annotate (.new "external call AddSigner")
          "Failed to add signer to contex"))
        [.AddCAs w.caDir 0, .AddCRLs w.crlDir 0, .GetSignCTX (some c),
          .AddSigner c E.BY_FILE w.certRecieverPath s]
  | rejected (c : Ctx) (s : Int) (hs : s ≠ 0) :
      CheckRun E text sig w
        (false, some (.annotate (.new "external call CheckBufferSignEx")
          "Failed to check signature out of context"))
        [.AddCAs w.caDir 0, .AddCRLs w.crlDir 0, .GetSignCTX (some c),
          .AddSigner c E.BY_FILE w.certRecieverPath 0,
          .CheckBufferSignEx c sig (toCInt sig.length) text (toCInt text.length) s]
  | accepted (c : Ctx) :
      CheckRun E text sig w (true, none)
        [.AddCAs w.caDir 0, .AddCRLs w.crlDir 0, .GetSignCTX (some c),
          .AddSigner c E.BY_FILE w.certRecieverPath 0,
          .CheckBufferSignEx c sig (toCInt sig.length) text (toCInt text.length) 0,
          .FreeSignCTX c]

/-- The status a `SignBufferEx` call reported, if the call is one. -/
def Call.signStatus : Call → Option Int
  | .SignBufferEx _ _ _ _ _ _ reply => some reply.status
  | _ => none

/-- The status of the first `SignBufferEx` call of a trace: the size probe. -/
def probeStatus (evs : List Call) : Option Int :=
  (evs.filterMap Call.signStatus).head?

/-- All five verification steps were made and each reported success: a zero
status from `AddCAs`, `AddCRLs`, `AddSigner` and `CheckBufferSignEx`, and a
non-null context from `GetSignCTX`. -/
def VerifyStepsSucceed (evs : List Call) : Prop :=
  (∃ d, Call.AddCAs d 0 ∈ evs) ∧ (∃ d, Call.AddCRLs d 0 ∈ evs) ∧
  (∃ c, Call.GetSignCTX (some c) ∈ evs) ∧ (∃ c k p, Call.AddSigner c k p 0 ∈ evs) ∧
  (∃ c s sl d dl, Call.CheckBufferSignEx c s sl d dl 0 ∈ evs)

/-- The script in which every native call succeeds. -/
def happyScript : Script := {}

/-- The script whose size probe reports status 0 instead of 160. -/
def zeroProbeScript : Script := { probe := ⟨0, [], 2⟩ }

/-- The script whose size probe fails with status 7. -/
def badProbeScript : Script := { probe := ⟨7, [], 0⟩ }

/-- An engine model for the round trip: every load, context and registration
call succeeds; the size probe answers 160 together with the required length
`reqLen d`; the second call, given a buffer of that length, succeeds and leaves
the signature `sigOf d dl` and its length; and the native verify accepts exactly
the signature bytes, with their length, that the native sign produces for the
same data bytes and data length. -/
structure RoundTripEngine {σ : Type} (E : Engine σ) (reqLen : List Byte → Nat)
    (sigOf : List Byte → Int → List Byte) : Prop where
  key_ok : ∀ p s, (E.AddPSEPrivateKey p s).1 = 0
  cas_ok : ∀ p s, (E.AddCAs p s).1 = 0
  crls_ok : ∀ p s, (E.AddCRLs p s).1 = 0
  ctx_ok : ∀ s, (E.GetSignCTX s).1 ≠ none
  signer_ok : ∀ c k p s, (E.AddSigner c k p s).1 = 0
  probe_ok : ∀ c d s, (E.SignBufferEx c d 0 [] 0 1 s).1.status = 160 ∧
    (E.SignBufferEx c d 0 [] 0 1 s).1.len = reqLen d
  sign_ok : ∀ c d dl s,
    (E.SignBufferEx c d dl (List.replicate (reqLen d) 0) (reqLen d) 1 s).1
      = ⟨0, sigOf d dl, (sigOf d dl).length⟩
  sig_len : ∀ d dl, (sigOf d dl).length < 2147483648
  verify_iff : ∀ c sg sl d dl s,
    (E.CheckBufferSignEx c sg sl d dl s).1 = 0 ↔ (sg = sigOf d dl ∧ sl = sg.length)

/-- A two-byte stand-in signature: the low bytes of the buffer length and of
the data length handed to the native call. -/
def tagOf (d : List Byte) (dl : Int) : List Byte :=
  [UInt8.ofNat d.length, UInt8.ofNat dl.toNat]

/-- A stateless engine that signs with `tagOf` and verifies against it. -/
def tagEngine : Engine Unit where
  BY_FILE := 1
  PKCS7Init := fun _ _ u => (0, u)
  PKCS7Final := fun u => u
  SetDigestAlgorithm := fun _ u => u
  InsertCertificateToSign := fun _ u => u
  InsertSigningTimeToSign := fun _ u => u
  AddPSEPrivateKey := fun _ u => (0, u)
  AddCAs := fun _ u => (0, u)
  AddCRLs := fun _ u => (0, u)
  GetSignCTX := fun u => (some 1, u)
  AddSigner := fun _ _ _ u => (0, u)
  SignBufferEx := fun _ d dl bufIn lenIn _ u =>
    if lenIn < 2 then (⟨160, bufIn, 2⟩, u) else (⟨0, tagOf d dl, 2⟩, u)
  CheckBufferSignEx := fun _ sg sl d dl u =>
    (if sg = tagOf d dl ∧ sl = 2 then 0 else 1, u)
  FreeSignCTX := fun _ u => u

/-- The script in which `PKCS7Init` fails with status 1. -/
def initFailsScript : Script := { initStatus := 1 }

/-- The script in which `AddSigner` fails with status 3. -/
def signerFailsScript : Script := { signerStatus := 3 }

/-- The script in which the second `SignBufferEx` call fails with status 7. -/
def secondFailsScript : Script := { second := ⟨7, [], 0⟩ }

/-- The script in which `CheckBufferSignEx` fails with status 7. -/
def checkFailsScript : Script := { checkStatus := 7 }

/-- A data buffer of `2^31` zero bytes. -/
def bigData : List Byte := List.replicate 2147483648 0

/-- The error `InitCryptoCerts` returns when `PKCS7Init` fails. -/
def initError : GoError :=
  .annotate (.new "external call PKCS7Init") "Failed to initialize crypto pkcs"

/-- The error `InitCryptoCerts` returns when the self-check signing fails with `e`. -/
def selfCheckError (e : GoError) : GoError :=
  .annotate (.annotate e "Failed to self-generate signature") "Crypto self-check failed"

/-- The error of a failed `AddPSEPrivateKey`. -/
def keyError : GoError :=
  .annotate (.new "external call AddPSEPrivateKey") "Failed to add private key"

/-- The error of a failed `AddCAs`. -/
def casError : GoError :=
  .annotate (.new "external call AddCAs") "Failed to add certificate authority"

/-- The error of a failed `AddSigner`. -/
def signerError : GoError :=
  .annotate (.new "external call AddSigner") "Failed to add signer to contex"

/-- The error of a failed second `SignBufferEx` call. -/
def secondError : GoError :=
  .annotate (.new "external call SignBufferEx") "Failed to retrieve signature out of context"

/-- The error of a failed `CheckBufferSignEx`. -/
def checkError : GoError :=
  .annotate (.new "external call CheckBufferSignEx") "Failed to check signature out of context"

/-- The error of a null `GetSignCTX` result inside `MakeSignatureFromString`. -/
def signCtxError : GoError :=
  .annotate (.new "external call GetSignCTX") "Failed to creat signature context"

/-- The error of a null `GetSignCTX` result inside `CheckSignatureByString`. -/
def verifyCtxError : GoError :=
  .annotate (.new "external call GetSignCTX") "Failed to create signature context"

/-- The error of a failed `AddCRLs`. -/
def crlsError : GoError := .new "AddCRLs"

/-- The native call reported a failure: a non-zero status, or a null context. -/
def Call.failed : Call → Bool
  | .PKCS7Init _ _ status => decide (status ≠ 0)
  | .AddPSEPrivateKey _ status => decide (status ≠ 0)
  | .AddCAs _ status => decide (status ≠ 0)
  | .AddCRLs _ status => decide (status ≠ 0)
  | .GetSignCTX ctx => ctx.isNone
  | .AddSigner _ _ _ status => decide (status ≠ 0)
  | .SignBufferEx _ _ _ _ _ _ reply => decide (reply.status ≠ 0)
  | .CheckBufferSignEx _ _ _ _ _ status => decide (status ≠ 0)
  | _ => false

/-- The error `MakeSignatureFromString` returns for a failed set-up step, a
step that comes before the native sign operation; `none` for any other call. -/
def Call.signSetupError : Call → Option GoError
  | .AddPSEPrivateKey _ status => if status = 0 then none else some keyError
  | .AddCAs _ status => if status = 0 then none else some casError
  | .GetSignCTX none => some signCtxError
  | .AddSigner _ _ _ status => if status = 0 then none else some signerError
  | _ => none

/-- The error `CheckSignatureByString` returns for a failed set-up step, a
step that comes before the native verify operation; `none` for any other call. -/
def Call.verifySetupError : Call → Option GoError
  | .AddCAs _ status => if status = 0 then none else some casError
  | .AddCRLs _ status => if status = 0 then none else some crlsError
  | .GetSignCTX none => some verifyCtxError
  | .AddSigner _ _ _ status => if status = 0 then none else some signerError
  | _ => none

/-- The worlds in which the engine is not ready: a process that has made no
call yet, the world a failed `InitCryptoCerts` leaves, the world
`FreeCryptoVars` leaves, and any world reached from such a world by signing or
verifying calls. -/
inductive NotReady {σ : Type} (E : Engine σ) : World σ → Prop where
  | fresh (s : σ) : NotReady E (World.fresh s)
  | initFailed (w : World σ) (root container ca certSender certReciever crl : String)
      (h : (InitCryptoCerts E root container ca certSender certReciever crl w).1 ≠ .ret none) :
      NotReady E (InitCryptoCerts E root container ca certSender certReciever crl w).2
  | freed (w : World σ) : NotReady E (FreeCryptoVars E w)
  | afterSign (w : World σ) (text : List Byte) (h : NotReady E w) :
      NotReady E (MakeSignatureFromString E text w).2
  | afterVerify (w : World σ) (text sig : List Byte) (h : NotReady E w) :
      NotReady E (CheckSignatureByString E text sig w).2

/-! ## Path lemmas -/

/-- Every call of `MakeSignatureFromString` follows one of the nine paths. -/
theorem make_run {σ : Type} (E : Engine σ) (text : List Byte) (w : World σ) :
    MakeRun E text w (MakeSignatureFromString E text w).1
      (callsSince w (MakeSignatureFromString E text w).2) := by
  unfold MakeSignatureFromString
  simp only []
  split_ifs with h1 h2
  · have := @MakeRun.keyFailed σ E text w _ h1
    simpa [callsSince, signSetup] using this
  · have := @MakeRun.casFailed σ E text w _ h2
    simp at h1
    simpa [callsSince, signSetup, h1] using this
  · simp at h1 h2
    split
    · rename_i hctx
      have := @MakeRun.noContext σ E text w
      simp at hctx
      simpa [callsSince, signSetup, h1, h2, hctx] using this
    · rename_i c hctx
      simp at hctx
      split_ifs with h3 h4
      · have := @MakeRun.signerFailed σ E text w c _ h3
        simpa [callsSince, signSetup, h1, h2, hctx] using this
      · simp at h3
        have := @MakeRun.probeFailed σ E text w c _ h4.1 h4.2
        simpa [callsSince, signSetup, h1, h2, hctx, h3] using this
      · simp at h3
        have hp : ∀ s : Int, ¬(s ≠ 0 ∧ s ≠ 160) → s = 0 ∨ s = 160 := by
          intro s hs
          by_cases h : s = 0
          · exact Or.inl h
          · exact Or.inr (by_contra fun h2 => hs ⟨h, h2⟩)
        have hp4 := hp _ h4
        unfold makeBytes
        split_ifs with hneg
        · have := @MakeRun.probeLenPanic σ E text w c _ hp4 hneg
          simpa [callsSince, signSetup, h1, h2, hctx, h3] using this
        · simp only []
          have hlen := not_lt.mp hneg
          split_ifs with h5
          · have := @MakeRun.secondFailed σ E text w c _ _ hp4 hlen h5
            simpa [callsSince, signSetup, h1, h2, hctx, h3] using this
          · simp at h5
            unfold GoBytes
            split_ifs with h6 h7
            · have := @MakeRun.copyPanic σ E text w c _ _ hp4 hlen h5
                (Or.inl h6)
              simpa [callsSince, signSetup, h1, h2, hctx, h3] using this
            · have := @MakeRun.copyPanic σ E text w c _ _ hp4 hlen h5
                (Or.inr h7)
              simpa [callsSince, signSetup, h1, h2, hctx, h3] using this
            · have := @MakeRun.signed σ E text w c _ _ hp4 hlen h5
                (not_lt.mp h6) (not_lt.mp h7)
              simpa [callsSince, signSetup, h1, h2, hctx, h3] using this

/-- Every call of `CheckSignatureByString` follows one of the six paths. -/
theorem check_run {σ : Type} (E : Engine σ) (text sig : List Byte) (w : World σ) :
    CheckRun E text sig w (CheckSignatureByString E text sig w).1
      (callsSince w (CheckSignatureByString E text sig w).2) := by
  unfold CheckSignatureByString
  simp only []
  split_ifs with h1 h2
  · have := @CheckRun.casFailed σ E text sig w _ h1
    simpa [callsSince] using this
  · have := @CheckRun.crlsFailed σ E text sig w _ h2
    simp at h1
    simpa [callsSince, h1] using this
  · simp at h1 h2
    split
    · rename_i hctx
      have := @CheckRun.noContext σ E text sig w
      simp at hctx
      simpa [callsSince, h1, h2, hctx] using this
    · rename_i c hctx
      simp at hctx
      split_ifs with h3 h4
      · have := @CheckRun.signerFailed σ E text sig w c _ h3
        simpa [callsSince, h1, h2, hctx] using this
      · simp at h3
        have := @CheckRun.rejected σ E text sig w c _ h4
        simpa [callsSince, h1, h2, hctx, h3] using this
      · simp at h3 h4
        have := @CheckRun.accepted σ E text sig w c
        simpa [callsSince, h1, h2, hctx, h3, h4] using this

/-- The function `MakeSignatureFromString` writes none of the six path variables. -/
theorem make_config {σ : Type} (E : Engine σ) (text : List Byte) (w : World σ) :
    (MakeSignatureFromString E text w).2.config = w.config := by
  unfold MakeSignatureFromString
  simp only []
  repeat first
    | rfl
    | split

/-- The function `CheckSignatureByString` writes none of the six path variables. -/
theorem check_config {σ : Type} (E : Engine σ) (text sig : List Byte) (w : World σ) :
    (CheckSignatureByString E text sig w).2.config = w.config := by
  unfold CheckSignatureByString
  simp only []
  repeat first
    | rfl
    | split

/-- The function `selfCheckVars` leaves the world exactly as its signing call left it. -/
theorem selfCheck_world {σ : Type} (E : Engine σ) (w : World σ) :
    (selfCheckVars E w).2 = (MakeSignatureFromString E helloWorld w).2 := by
  unfold selfCheckVars
  simp only []
  split <;> rfl

/-! ## Verification result (C1) -/

/-- C1: `CheckSignatureByString` returns `(true, nil)` exactly when `AddCAs`,
`AddCRLs`, `GetSignCTX`, `AddSigner` and `CheckBufferSignEx` were all called and
all reported success; in every other case it returns `false` with a non-nil
error.  So it never returns `(false, nil)` and never `true` with an error. -/
theorem C1_verify_true_iff_all_steps_succeed {σ : Type} (E : Engine σ)
    (text sig : List Byte) (w : World σ) :
    ((CheckSignatureByString E text sig w).1 = (true, none) ∧
      VerifyStepsSucceed (callsSince w (CheckSignatureByString E text sig w).2)) ∨
    ((∃ e, (CheckSignatureByString E text sig w).1 = (false, some e)) ∧
      ¬ VerifyStepsSucceed (callsSince w (CheckSignatureByString E text sig w).2)) := by
  have h := check_run E text sig w
  generalize (CheckSignatureByString E text sig w).1 = out at h ⊢
  generalize callsSince w (CheckSignatureByString E text sig w).2 = evs at h ⊢
  cases h with
  | casFailed s hs => right; simp [VerifyStepsSucceed]
  | crlsFailed s hs => right; simp [VerifyStepsSucceed]
  | noContext => right; simp [VerifyStepsSucceed]
  | signerFailed c s hs => right; simp [VerifyStepsSucceed]
  | rejected c s hs =>
    right
    simp [VerifyStepsSucceed]
    exact fun h => hs h.symm
  | accepted c => left; simp [VerifyStepsSucceed]

/-! ## Size probe (C2) -/

/-- C2, as the code has it: when the size probe reports a status other than 0
and other than 160, `MakeSignatureFromString` returns the probe error, which
carries that status, and no second `SignBufferEx` call is made. -/
theorem C2_probe_failure_stops {σ : Type} (E : Engine σ) (text : List Byte) (w : World σ)
    (s : Int)
    (hprobe : probeStatus (callsSince w (MakeSignatureFromString E text w).2) = some s)
    (h0 : s ≠ 0) (h160 : s ≠ 160) :
    (MakeSignatureFromString E text w).1 = .ret ([], some (probeError s)) ∧
    ((callsSince w (MakeSignatureFromString E text w).2).filter Call.isSign).length = 1 := by
  have h := make_run E text w
  generalize (MakeSignatureFromString E text w).1 = out at h ⊢
  generalize callsSince w (MakeSignatureFromString E text w).2 = evs at h hprobe ⊢
  cases h <;>
    simp [probeStatus, signSetup, Call.signStatus, Call.isSign] at hprobe ⊢ <;>
    subst hprobe <;> first | rfl | omega

/-- C2 witness: a probe that fails with status 7. -/
theorem C2_probe_failure_stops_witness :
    (MakeSignatureFromString badProbeScript.engine [1, 2, 3] (World.fresh 0)).1
        = .ret ([], some (probeError 7)) ∧
    ((callsSince (World.fresh 0)
        (MakeSignatureFromString badProbeScript.engine [1, 2, 3] (World.fresh 0)).2).filter
      Call.isSign).length = 1 :=
  C2_probe_failure_stops badProbeScript.engine [1, 2, 3] (World.fresh 0) 7 rfl
    (by decide) (by decide)

/-- C2 counterexample: the probe reports status 0, which is not 160, yet the
call goes on to the second `SignBufferEx` and returns a signature with no error. -/
theorem C2_probe_status_zero_continues :
    probeStatus (callsSince (World.fresh 0)
        (MakeSignatureFromString zeroProbeScript.engine [1, 2, 3] (World.fresh 0)).2)
      = some 0 ∧
    (0 : Int) ≠ 160 ∧
    (MakeSignatureFromString zeroProbeScript.engine [1, 2, 3] (World.fresh 0)).1
      = .ret ([170, 187], none) ∧
    ((callsSince (World.fresh 0)
        (MakeSignatureFromString zeroProbeScript.engine [1, 2, 3] (World.fresh 0)).2).filter
      Call.isSign).length = 2 :=
  ⟨rfl, by decide, rfl, rfl⟩

/-! ## Round trip (C3) -/

/-- The function `toCInt` is the identity on lengths below `2^31`. -/
theorem toCInt_of_lt (n : Nat) (h : n < 2147483648) : toCInt n = n := by
  unfold toCInt
  omega

/-- The tag engine is a round-trip engine. -/
theorem tagEngine_roundTrip : RoundTripEngine tagEngine (fun _ => 2) tagOf where
  key_ok := fun _ _ => rfl
  cas_ok := fun _ _ => rfl
  crls_ok := fun _ _ => rfl
  ctx_ok := fun _ => by simp [tagEngine]
  signer_ok := fun _ _ _ _ => rfl
  probe_ok := fun _ _ _ => by simp [tagEngine]
  sign_ok := fun _ _ _ _ => by simp [tagEngine, tagOf]
  sig_len := fun _ _ => by simp [tagOf]
  verify_iff := fun _ sg sl d dl _ => by
    simp only [tagEngine]
    constructor
    · intro h
      split_ifs at h with hc
      · exact ⟨hc.1, by rw [hc.1, hc.2]; simp [tagOf]⟩
      · exact absurd h (by decide)
    · rintro ⟨h1, h2⟩
      rw [if_pos]
      exact ⟨h1, by rw [h2, h1]; simp [tagOf]⟩

/-- The function `make([]byte, n)` for a non-negative length returns `n` zero bytes. -/
theorem makeBytes_natCast (n : Nat) : makeBytes (n : Int) = .ret (List.replicate n 0) := by
  have h : ¬ ((n : Int) < 0) := by omega
  simp [makeBytes, h]

/-- The function `C.GoBytes` over a whole buffer returns that buffer. -/
theorem GoBytes_length (l : List Byte) : GoBytes l (l.length : Int) = .ret l := by
  have h : ¬ ((l.length : Int) < 0) := by omega
  simp [GoBytes, h]

/-- In a round-trip engine model a signing call returns the native signature
along the success path. -/
theorem make_roundTrip {σ : Type} (E : Engine σ) (reqLen : List Byte → Nat)
    (sigOf : List Byte → Int → List Byte) (hE : RoundTripEngine E reqLen sigOf)
    (d : List Byte) (w : World σ) :
    ∃ c p,
      (MakeSignatureFromString E d w).1 = .ret (sigOf d (toCInt d.length), none) ∧
      callsSince w (MakeSignatureFromString E d w).2 =
        signSetup ++ [.AddPSEPrivateKey w.containerDir 0, .AddCAs w.caDir 0,
          .GetSignCTX (some c), .AddSigner c E.BY_FILE w.certSenderPath 0,
          .SignBufferEx c d 0 [] 0 1 p,
          .SignBufferEx c d (toCInt d.length) (List.replicate (reqLen d) 0) (reqLen d) 1
            ⟨0, sigOf d (toCInt d.length), (sigOf d (toCInt d.length)).length⟩,
          .FreeSignCTX c] := by
  obtain ⟨c, hc⟩ := Option.ne_none_iff_exists'.mp (hE.ctx_ok
    (E.AddCAs w.caDir (E.AddPSEPrivateKey w.containerDir (E.InsertSigningTimeToSign 0
      (E.InsertCertificateToSign 0
        (E.SetDigestAlgorithm "MP_HASH_ALG_NAME_GOST_2012_512" w.eng)))).2).2)
  have hp1 := fun c d s => (hE.probe_ok c d s).1
  have hp2 := fun c d s => (hE.probe_ok c d s).2
  refine ⟨c, (E.SignBufferEx c d 0 [] 0 1 (E.AddSigner c E.BY_FILE w.certSenderPath
    (E.GetSignCTX (E.AddCAs w.caDir (E.AddPSEPrivateKey w.containerDir
      (E.InsertSigningTimeToSign 0 (E.InsertCertificateToSign 0
        (E.SetDigestAlgorithm "MP_HASH_ALG_NAME_GOST_2012_512" w.eng)))).2).2).2).2).1, ?_⟩
  simp [MakeSignatureFromString, hE.key_ok, hE.cas_ok, hE.signer_ok, hc, hp1, hp2,
    makeBytes_natCast, hE.sign_ok, GoBytes_length, callsSince, signSetup]

/-- In a round-trip engine model, verifying the native signature of `d`
against `d` returns `(true, nil)` along the success path. -/
theorem check_roundTrip {σ : Type} (E : Engine σ) (reqLen : List Byte → Nat)
    (sigOf : List Byte → Int → List Byte) (hE : RoundTripEngine E reqLen sigOf)
    (d : List Byte) (w : World σ) :
    ∃ c,
      (CheckSignatureByString E d (sigOf d (toCInt d.length)) w).1 = (true, none) ∧
      callsSince w (CheckSignatureByString E d (sigOf d (toCInt d.length)) w).2 =
        [.AddCAs w.caDir 0, .AddCRLs w.crlDir 0, .GetSignCTX (some c),
          .AddSigner c E.BY_FILE w.certRecieverPath 0,
          .CheckBufferSignEx c (sigOf d (toCInt d.length))
            (sigOf d (toCInt d.length)).length d (toCInt d.length) 0,
          .FreeSignCTX c] := by
  obtain ⟨c, hc⟩ := Option.ne_none_iff_exists'.mp (hE.ctx_ok
    (E.AddCRLs w.crlDir (E.AddCAs w.caDir w.eng).2).2)
  have hv := fun c s => (hE.verify_iff c (sigOf d (toCInt d.length))
    (sigOf d (toCInt d.length)).length d (toCInt d.length) s).mpr ⟨rfl, rfl⟩
  refine ⟨c, ?_⟩
  simp [CheckSignatureByString, hE.cas_ok, hE.crls_ok, hE.signer_ok, hc,
    toCInt_of_lt _ (hE.sig_len d (toCInt d.length)), hv, callsSince]

/-- C3: in a round-trip engine model, for every data buffer `d` (the empty one
included) `MakeSignatureFromString d` returns a signature `s` with no error and
`CheckSignatureByString d s` then returns `(true, nil)`.  The second sign call
and the verify call receive the same data bytes and data length, and verify
receives exactly the bytes and the length the second sign call produced. -/
theorem C3_sign_then_verify {σ : Type} (E : Engine σ) (reqLen : List Byte → Nat)
    (sigOf : List Byte → Int → List Byte) (hE : RoundTripEngine E reqLen sigOf)
    (d : List Byte) (w : World σ) :
    ∃ s c1 c2 bufIn lenIn q,
      (MakeSignatureFromString E d w).1 = .ret (s, none) ∧
      (CheckSignatureByString E d s (MakeSignatureFromString E d w).2).1 = (true, none) ∧
      Call.SignBufferEx c1 d (toCInt d.length) bufIn lenIn 1 q
        ∈ callsSince w (MakeSignatureFromString E d w).2 ∧
      s = q.buf.take q.len.toNat ∧
      Call.CheckBufferSignEx c2 (q.buf.take q.len.toNat) q.len d (toCInt d.length) 0
        ∈ callsSince (MakeSignatureFromString E d w).2
            (CheckSignatureByString E d s (MakeSignatureFromString E d w).2).2 := by
  obtain ⟨c1, p, hret, hcalls⟩ := make_roundTrip E reqLen sigOf hE d w
  obtain ⟨c2, hok, hcalls2⟩ :=
    check_roundTrip E reqLen sigOf hE d (MakeSignatureFromString E d w).2
  refine ⟨sigOf d (toCInt d.length), c1, c2, List.replicate (reqLen d) 0, reqLen d,
    ⟨0, sigOf d (toCInt d.length), (sigOf d (toCInt d.length)).length⟩, hret, hok, ?_, ?_, ?_⟩
  · rw [hcalls]; simp
  · simp
  · rw [hcalls2]; simp

/-- C3 witness: the tag engine signs and verifies the empty buffer. -/
theorem C3_sign_then_verify_witness :
    RoundTripEngine tagEngine (fun _ => 2) tagOf ∧
    ∃ s c1 c2 bufIn lenIn q,
      (MakeSignatureFromString tagEngine [] (World.fresh ())).1 = .ret (s, none) ∧
      (CheckSignatureByString tagEngine [] s
        (MakeSignatureFromString tagEngine [] (World.fresh ())).2).1 = (true, none) ∧
      Call.SignBufferEx c1 [] (toCInt ([] : List Byte).length) bufIn lenIn 1 q
        ∈ callsSince (World.fresh ()) (MakeSignatureFromString tagEngine [] (World.fresh ())).2 ∧
      s = q.buf.take q.len.toNat ∧
      Call.CheckBufferSignEx c2 (q.buf.take q.len.toNat) q.len [] (toCInt ([] : List Byte).length) 0
        ∈ callsSince (MakeSignatureFromString tagEngine [] (World.fresh ())).2
            (CheckSignatureByString tagEngine [] s
              (MakeSignatureFromString tagEngine [] (World.fresh ())).2).2 :=
  ⟨tagEngine_roundTrip,
    C3_sign_then_verify tagEngine (fun _ => 2) tagOf tagEngine_roundTrip [] (World.fresh ())⟩

/-! ## Initialization (C4) -/

/-- Every error wraps itself. -/
theorem GoError.wraps_self (e : GoError) : e.Wraps e := by
  cases e with
  | new msg => simp [GoError.Wraps]
  | annotate err msg => simp [GoError.Wraps]

/-- C4: `InitCryptoCerts` returns nil exactly when `PKCS7Init` reports status 0
and the self-check signing of `"Hello world!"` returns no error.  One of four
cases holds: `PKCS7Init` fails, the init error is returned and `PKCS7Init` is
the only native call made; or the self-check signing succeeds and nil is
returned; or the signing returns an error `e` and the returned error wraps `e`;
or the signing does not return and neither does `InitCryptoCerts`. -/
theorem C4_init_result {σ : Type} (E : Engine σ)
    (root container ca certSender certReciever crl : String) (w : World σ) :
    ((InitCryptoCerts E root container ca certSender certReciever crl w).1 = .ret none ↔
      (cPKCS7Init E container 0
          (setPaths root container ca certSender certReciever crl w)).1 = 0 ∧
      ∃ s, (MakeSignatureFromString E helloWorld (cPKCS7Init E container 0
          (setPaths root container ca certSender certReciever crl w)).2).1 = .ret (s, none)) ∧
    (((cPKCS7Init E container 0
          (setPaths root container ca certSender certReciever crl w)).1 ≠ 0 ∧
        (InitCryptoCerts E root container ca certSender certReciever crl w).1
          = .ret (some initError) ∧
        callsSince w (InitCryptoCerts E root container ca certSender certReciever crl w).2
          = [Call.PKCS7Init container 0 (cPKCS7Init E container 0
              (setPaths root container ca certSender certReciever crl w)).1]) ∨
      ((cPKCS7Init E container 0
          (setPaths root container ca certSender certReciever crl w)).1 = 0 ∧
        (∃ s, (MakeSignatureFromString E helloWorld (cPKCS7Init E container 0
          (setPaths root container ca certSender certReciever crl w)).2).1 = .ret (s, none)) ∧
        (InitCryptoCerts E root container ca certSender certReciever crl w).1 = .ret none) ∨
      ((cPKCS7Init E container 0
          (setPaths root container ca certSender certReciever crl w)).1 = 0 ∧
        ∃ s e, (MakeSignatureFromString E helloWorld (cPKCS7Init E container 0
          (setPaths root container ca certSender certReciever crl w)).2).1
            = .ret (s, some e) ∧
          (InitCryptoCerts E root container ca certSender certReciever crl w).1
            = .ret (some (selfCheckError e)) ∧
          (selfCheckError e).Wraps e) ∨
      ((cPKCS7Init E container 0
          (setPaths root container ca certSender certReciever crl w)).1 = 0 ∧
        (MakeSignatureFromString E helloWorld (cPKCS7Init E container 0
          (setPaths root container ca certSender certReciever crl w)).2).1 = .panic ∧
        (InitCryptoCerts E root container ca certSender certReciever crl w).1 = .panic)) := by
  have hw : callsSince w (cPKCS7Init E container 0
      (setPaths root container ca certSender certReciever crl w)).2
      = [Call.PKCS7Init container 0 (cPKCS7Init E container 0
          (setPaths root container ca certSender certReciever crl w)).1] := by
    simp [callsSince, setPaths]
  unfold InitCryptoCerts selfCheckVars
  simp only [show (setPaths root container ca certSender certReciever crl w).containerDir
    = container from rfl]
  generalize cPKCS7Init E container 0
    (setPaths root container ca certSender certReciever crl w) = ini at hw ⊢
  by_cases h : ini.1 = 0
  · rcases hm : (MakeSignatureFromString E helloWorld ini.2).1 with ⟨s, e⟩ | _
    · cases e with
      | none => simp [h, hm]
      | some e =>
        simp [h, hm, selfCheckError, GoError.Wraps]
        exact ⟨s, e, ⟨rfl, rfl⟩, rfl, Or.inr (Or.inr (GoError.wraps_self e))⟩
    · simp [h, hm]
  · simp [h, hw, initError]

/-! ## Calls made while the engine is not ready (C5) -/

/-- C5, as the code has it: the wrapper keeps no readiness state.  For a call
made while the engine is not ready (before any successful `InitCryptoCerts`,
after a failed one, or after `FreeCryptoVars`): `MakeSignatureFromString`
either meets a failed set-up step (`AddPSEPrivateKey`, `AddCAs`, `GetSignCTX`,
`AddSigner`), returns the fixed error of that step and makes no `SignBufferEx`
call, or meets none and does call `SignBufferEx`; `CheckSignatureByString`
either meets a failed set-up step (`AddCAs`, `AddCRLs`, `GetSignCTX`,
`AddSigner`), returns `false` with the fixed error of that step and makes no
`CheckBufferSignEx` call, or meets none and does call `CheckBufferSignEx`.
Either call returns an error only if a native call it made reported a failure. -/
theorem C5_not_ready_call_stops_iff_setup_fails {σ : Type} (E : Engine σ)
    (text sig : List Byte) (w : World σ) (_ : NotReady E w) :
    (((∃ e, (callsSince w (MakeSignatureFromString E text w).2).findSome?
              Call.signSetupError = some e ∧
          (MakeSignatureFromString E text w).1 = .ret ([], some e) ∧
          (callsSince w (MakeSignatureFromString E text w).2).filter Call.isSign = []) ∨
        ((callsSince w (MakeSignatureFromString E text w).2).findSome?
              Call.signSetupError = none ∧
          (callsSince w (MakeSignatureFromString E text w).2).filter Call.isSign ≠ [])) ∧
      (∀ s e, (MakeSignatureFromString E text w).1 = .ret (s, some e) →
        ∃ ev ∈ callsSince w (MakeSignatureFromString E text w).2, ev.failed = true)) ∧
    (((∃ e, (callsSince w (CheckSignatureByString E text sig w).2).findSome?
              Call.verifySetupError = some e ∧
          (CheckSignatureByString E text sig w).1 = (false, some e) ∧
          (callsSince w (CheckSignatureByString E text sig w).2).filter Call.isCheck = []) ∨
        ((callsSince w (CheckSignatureByString E text sig w).2).findSome?
              Call.verifySetupError = none ∧
          (callsSince w (CheckSignatureByString E text sig w).2).filter Call.isCheck ≠ [])) ∧
      (∀ b e, (CheckSignatureByString E text sig w).1 = (b, some e) →
        ∃ ev ∈ callsSince w (CheckSignatureByString E text sig w).2, ev.failed = true)) := by
  constructor
  · have h := make_run E text w
    generalize (MakeSignatureFromString E text w).1 = out at h ⊢
    generalize callsSince w (MakeSignatureFromString E text w).2 = evs at h ⊢
    cases h <;>
      simp [signSetup, Call.signSetupError, Call.isSign, Call.failed, keyError, casError,
        signCtxError, signerError, *]
  · have h := check_run E text sig w
    generalize (CheckSignatureByString E text sig w).1 = out at h ⊢
    generalize callsSince w (CheckSignatureByString E text sig w).2 = evs at h ⊢
    cases h <;>
      simp [Call.verifySetupError, Call.isCheck, Call.failed, casError, crlsError,
        verifyCtxError, signerError, *]

/-- C5 witness: after `FreeCryptoVars`, with an engine whose `AddSigner` fails. -/
theorem C5_not_ready_call_stops_iff_setup_fails_witness :
    NotReady signerFailsScript.engine (FreeCryptoVars signerFailsScript.engine (World.fresh 0)) ∧
    (((∃ e, (callsSince (FreeCryptoVars signerFailsScript.engine (World.fresh 0))
              (MakeSignatureFromString signerFailsScript.engine [1, 2, 3]
                (FreeCryptoVars signerFailsScript.engine (World.fresh 0))).2).findSome?
              Call.signSetupError = some e ∧
          (MakeSignatureFromString signerFailsScript.engine [1, 2, 3]
            (FreeCryptoVars signerFailsScript.engine (World.fresh 0))).1 = .ret ([], some e) ∧
          (callsSince (FreeCryptoVars signerFailsScript.engine (World.fresh 0))
            (MakeSignatureFromString signerFailsScript.engine [1, 2, 3]
              (FreeCryptoVars signerFailsScript.engine (World.fresh 0))).2).filter
              Call.isSign = []) ∨
        ((callsSince (FreeCryptoVars signerFailsScript.engine (World.fresh 0))
              (MakeSignatureFromString signerFailsScript.engine [1, 2, 3]
                (FreeCryptoVars signerFailsScript.engine (World.fresh 0))).2).findSome?
              Call.signSetupError = none ∧
          (callsSince (FreeCryptoVars signerFailsScript.engine (World.fresh 0))
            (MakeSignatureFromString signerFailsScript.engine [1, 2, 3]
              (FreeCryptoVars signerFailsScript.engine (World.fresh 0))).2).filter
              Call.isSign ≠ [])) ∧
      (∀ s e, (MakeSignatureFromString signerFailsScript.engine [1, 2, 3]
          (FreeCryptoVars signerFailsScript.engine (World.fresh 0))).1 = .ret (s, some e) →
        ∃ ev ∈ callsSince (FreeCryptoVars signerFailsScript.engine (World.fresh 0))
            (MakeSignatureFromString signerFailsScript.engine [1, 2, 3]
              (FreeCryptoVars signerFailsScript.engine (World.fresh 0))).2,
          ev.failed = true)) ∧
    (((∃ e, (callsSince (FreeCryptoVars signerFailsScript.engine (World.fresh 0))
              (CheckSignatureByString signerFailsScript.engine [1, 2, 3] [170, 187]
                (FreeCryptoVars signerFailsScript.engine (World.fresh 0))).2).findSome?
              Call.verifySetupError = some e ∧
          (CheckSignatureByString signerFailsScript.engine [1, 2, 3] [170, 187]
            (FreeCryptoVars signerFailsScript.engine (World.fresh 0))).1 = (false, some e) ∧
          (callsSince (FreeCryptoVars signerFailsScript.engine (World.fresh 0))
            (CheckSignatureByString signerFailsScript.engine [1, 2, 3] [170, 187]
              (FreeCryptoVars signerFailsScript.engine (World.fresh 0))).2).filter
              Call.isCheck = []) ∨
        ((callsSince (FreeCryptoVars signerFailsScript.engine (World.fresh 0))
              (CheckSignatureByString signerFailsScript.engine [1, 2, 3] [170, 187]
                (FreeCryptoVars signerFailsScript.engine (World.fresh 0))).2).findSome?
              Call.verifySetupError = none ∧
          (callsSince (FreeCryptoVars signerFailsScript.engine (World.fresh 0))
            (CheckSignatureByString signerFailsScript.engine [1, 2, 3] [170, 187]
              (FreeCryptoVars signerFailsScript.engine (World.fresh 0))).2).filter
              Call.isCheck ≠ [])) ∧
      (∀ b e, (CheckSignatureByString signerFailsScript.engine [1, 2, 3] [170, 187]
          (FreeCryptoVars signerFailsScript.engine (World.fresh 0))).1 = (b, some e) →
        ∃ ev ∈ callsSince (FreeCryptoVars signerFailsScript.engine (World.fresh 0))
            (CheckSignatureByString signerFailsScript.engine [1, 2, 3] [170, 187]
              (FreeCryptoVars signerFailsScript.engine (World.fresh 0))).2,
          ev.failed = true)) :=
  ⟨NotReady.freed (World.fresh 0),
   C5_not_ready_call_stops_iff_setup_fails signerFailsScript.engine [1, 2, 3] [170, 187]
     (FreeCryptoVars signerFailsScript.engine (World.fresh 0)) (NotReady.freed (World.fresh 0))⟩

/-- C5 counterexample: with an engine whose calls succeed, a signing call made
before any `InitCryptoCerts`, a signing call made after a failed
`InitCryptoCerts`, and a verifying call made after `FreeCryptoVars` are all
made while the engine is not ready, and all reach the native sign or verify
operation and return without error. -/
theorem C5_not_ready_calls_reach_native_engine :
    (NotReady happyScript.engine (World.fresh 0) ∧
      (MakeSignatureFromString happyScript.engine [1, 2, 3] (World.fresh 0)).1
        = .ret ([170, 187], none) ∧
      ((callsSince (World.fresh 0)
        (MakeSignatureFromString happyScript.engine [1, 2, 3] (World.fresh 0)).2).filter
          Call.isSign).length = 2) ∧
    (NotReady initFailsScript.engine
        (InitCryptoCerts initFailsScript.engine "r" "k" "ca" "s" "v" "crl" (World.fresh 0)).2 ∧
      (InitCryptoCerts initFailsScript.engine "r" "k" "ca" "s" "v" "crl" (World.fresh 0)).1
        = .ret (some initError) ∧
      (MakeSignatureFromString initFailsScript.engine [1, 2, 3]
        (InitCryptoCerts initFailsScript.engine "r" "k" "ca" "s" "v" "crl" (World.fresh 0)).2).1
        = .ret ([170, 187], none)) ∧
    (NotReady happyScript.engine (FreeCryptoVars happyScript.engine (World.fresh 0)) ∧
      (CheckSignatureByString happyScript.engine [1, 2, 3] [170, 187]
        (FreeCryptoVars happyScript.engine (World.fresh 0))).1 = (true, none) ∧
      ((callsSince (FreeCryptoVars happyScript.engine (World.fresh 0))
        (CheckSignatureByString happyScript.engine [1, 2, 3] [170, 187]
          (FreeCryptoVars happyScript.engine (World.fresh 0))).2).filter
          Call.isCheck).length = 1) := by
  refine ⟨⟨NotReady.fresh 0, rfl, rfl⟩, ⟨?_, rfl, rfl⟩, ⟨NotReady.freed _, rfl, rfl⟩⟩
  refine NotReady.initFailed _ _ _ _ _ _ _ ?_
  rw [show (InitCryptoCerts initFailsScript.engine "r" "k" "ca" "s" "v" "crl"
    (World.fresh 0)).1 = .ret (some initError) from rfl]
  simp

/-! ## Context release (C6, C7) -/

/-- C6 at failing inputs: when `AddSigner`, the size probe or the second
`SignBufferEx` call fails inside `MakeSignatureFromString`, the context that
`GetSignCTX` returned is never passed to `FreeSignCTX`, and one more native
context is live after the call than before it. -/
theorem C6_sign_context_not_released_on_failure :
    ((MakeSignatureFromString signerFailsScript.engine [1, 2, 3] (World.fresh 0)).1
        = .ret ([], some signerError) ∧
      Call.GetSignCTX (some 1) ∈
        (MakeSignatureFromString signerFailsScript.engine [1, 2, 3] (World.fresh 0)).2.trace ∧
      freesOf 1
        (MakeSignatureFromString signerFailsScript.engine [1, 2, 3] (World.fresh 0)).2.trace
        = 0 ∧
      liveContexts
        (MakeSignatureFromString signerFailsScript.engine [1, 2, 3] (World.fresh 0)).2.trace
        = 1) ∧
    ((MakeSignatureFromString badProbeScript.engine [1, 2, 3] (World.fresh 0)).1
        = .ret ([], some (probeError 7)) ∧
      freesOf 1
        (MakeSignatureFromString badProbeScript.engine [1, 2, 3] (World.fresh 0)).2.trace
        = 0 ∧
      liveContexts
        (MakeSignatureFromString badProbeScript.engine [1, 2, 3] (World.fresh 0)).2.trace
        = 1) ∧
    ((MakeSignatureFromString secondFailsScript.engine [1, 2, 3] (World.fresh 0)).1
        = .ret ([], some secondError) ∧
      freesOf 1
        (MakeSignatureFromString secondFailsScript.engine [1, 2, 3] (World.fresh 0)).2.trace
        = 0 ∧
      liveContexts
        (MakeSignatureFromString secondFailsScript.engine [1, 2, 3] (World.fresh 0)).2.trace
        = 1) ∧
    (freesOf 1
        (MakeSignatureFromString happyScript.engine [1, 2, 3] (World.fresh 0)).2.trace = 1 ∧
      liveContexts
        (MakeSignatureFromString happyScript.engine [1, 2, 3] (World.fresh 0)).2.trace = 0) := by
  refine ⟨⟨rfl, ?_, rfl, rfl⟩, ⟨rfl, rfl, rfl⟩, ⟨rfl, rfl, rfl⟩, ⟨rfl, rfl⟩⟩
  decide

/-- C7 at failing inputs: when `AddSigner` or `CheckBufferSignEx` fails inside
`CheckSignatureByString`, the context that `GetSignCTX` returned is never
passed to `FreeSignCTX`; on the accepting path it is released once. -/
theorem C7_verify_context_not_released_on_failure :
    ((CheckSignatureByString signerFailsScript.engine [1, 2, 3] [170, 187]
        (World.fresh 0)).1 = (false, some signerError) ∧
      Call.GetSignCTX (some 1) ∈
        (CheckSignatureByString signerFailsScript.engine [1, 2, 3] [170, 187]
          (World.fresh 0)).2.trace ∧
      freesOf 1 (CheckSignatureByString signerFailsScript.engine [1, 2, 3] [170, 187]
        (World.fresh 0)).2.trace = 0) ∧
    ((CheckSignatureByString checkFailsScript.engine [1, 2, 3] [170, 187]
        (World.fresh 0)).1 = (false, some checkError) ∧
      Call.GetSignCTX (some 1) ∈
        (CheckSignatureByString checkFailsScript.engine [1, 2, 3] [170, 187]
          (World.fresh 0)).2.trace ∧
      freesOf 1 (CheckSignatureByString checkFailsScript.engine [1, 2, 3] [170, 187]
        (World.fresh 0)).2.trace = 0) ∧
    freesOf 1 (CheckSignatureByString happyScript.engine [1, 2, 3] [170, 187]
      (World.fresh 0)).2.trace = 1 := by
  refine ⟨⟨rfl, ?_, rfl⟩, ⟨rfl, ?_, rfl⟩, rfl⟩ <;> decide

/-! ## Trust configuration frame (C8) -/

/-- C8: `InitCryptoCerts` sets each of the six path variables to its argument,
whatever the engine answers; `MakeSignatureFromString`, `CheckSignatureByString`,
`FreeCryptoVars` and `GetSignAlgoString` leave all six unchanged. -/
theorem C8_paths_written_only_by_init {σ : Type} (E : Engine σ)
    (root container ca certSender certReciever crl : String) (text sig : List Byte)
    (w : World σ) :
    (InitCryptoCerts E root container ca certSender certReciever crl w).2.config
      = ⟨root, container, ca, certSender, certReciever, crl⟩ ∧
    (MakeSignatureFromString E text w).2.config = w.config ∧
    (CheckSignatureByString E text sig w).2.config = w.config ∧
    (FreeCryptoVars E w).config = w.config ∧
    (GetSignAlgoString w).2.config = w.config := by
  refine ⟨?_, make_config E text w, check_config E text sig w, rfl, rfl⟩
  have hchk : ∀ v : World σ, (selfCheckVars E v).2.config = v.config := fun v => by
    rw [selfCheck_world, make_config]
  unfold InitCryptoCerts
  simp only []
  split_ifs with h
  · rfl
  · have h2 := hchk (cPKCS7Init E
      (setPaths root container ca certSender certReciever crl w).containerDir 0
      (setPaths root container ca certSender certReciever crl w)).2
    split <;> exact h2

/-! ## Two-phase signing (C9) -/

/-- The length of `bigData` is `2^31`. -/
theorem bigData_length : bigData.length = 2147483648 :=
  List.length_replicate 2147483648 0

/-- The run of `MakeSignatureFromString` against the all-success script. -/
theorem make_happy (text : List Byte) :
    (MakeSignatureFromString happyScript.engine text (World.fresh 0)).1
      = .ret ([170, 187], none) ∧
    (callsSince (World.fresh 0)
      (MakeSignatureFromString happyScript.engine text (World.fresh 0)).2).filter Call.isSign
      = [.SignBufferEx 1 text 0 [] 0 1 ⟨160, [], 2⟩,
         .SignBufferEx 1 text (toCInt text.length) [0, 0] 2 1 ⟨0, [170, 187], 2⟩] :=
  ⟨rfl, rfl⟩

/-- C9, as the code has it: whenever `MakeSignatureFromString` returns a
signature `s` with no error for data `d` shorter than `2^31` bytes, it made
exactly two `SignBufferEx` calls on one context: the first with an empty output
buffer and output length 0, the second with a buffer of exactly the length the
first call reported and with data length `len(d)`; `s` is the first `outLen`
bytes the second call left, `outLen` being the length it reported, and `s` has
length `outLen`. -/
theorem C9_two_phase_sign {σ : Type} (E : Engine σ) (d : List Byte) (w : World σ)
    (s : List Byte)
    (hret : (MakeSignatureFromString E d w).1 = .ret (s, none))
    (hlen : d.length < 2147483648) :
    ∃ c p q,
      (callsSince w (MakeSignatureFromString E d w).2).filter Call.isSign
        = [.SignBufferEx c d 0 [] 0 1 p,
           .SignBufferEx c d d.length (List.replicate p.len.toNat 0) p.len 1 q] ∧
      ((List.replicate p.len.toNat (0 : Byte)).length : Int) = p.len ∧
      s = q.buf.take q.len.toNat ∧
      (s.length : Int) = q.len := by
  have h := make_run E d w
  rw [hret] at h
  generalize callsSince w (MakeSignatureFromString E d w).2 = evs at h ⊢
  cases h with
  | signed c p q hp hl hq hq0 hfit =>
    refine ⟨c, p, q, ?_, ?_, rfl, ?_⟩
    · simp [signSetup, Call.isSign, toCInt_of_lt d.length hlen]
    · simp [Int.toNat_of_nonneg hl]
    · rw [List.length_take, Nat.min_eq_left hfit, Int.toNat_of_nonneg hq0]

/-- C9 witness: a three-byte buffer signed by the all-success script. -/
theorem C9_two_phase_sign_witness :
    ∃ c p q,
      (callsSince (World.fresh 0)
        (MakeSignatureFromString happyScript.engine [1, 2, 3] (World.fresh 0)).2).filter
          Call.isSign
        = [.SignBufferEx c [1, 2, 3] 0 [] 0 1 p,
           .SignBufferEx c [1, 2, 3] ([1, 2, 3] : List Byte).length
             (List.replicate p.len.toNat 0) p.len 1 q] ∧
      ((List.replicate p.len.toNat (0 : Byte)).length : Int) = p.len ∧
      ([170, 187] : List Byte) = q.buf.take q.len.toNat ∧
      ((([170, 187] : List Byte).length : Nat) : Int) = q.len :=
  C9_two_phase_sign happyScript.engine [1, 2, 3] (World.fresh 0) [170, 187] rfl (by decide)

/-- C9 counterexample: for a buffer of `2^31` bytes every native step succeeds
and a signature is returned, yet the data length handed to the second
`SignBufferEx` call is `-2^31`, not `len(d) = 2^31`. -/
theorem C9_data_length_wraps_at_2_pow_31 :
    (bigData.length : Int) = 2147483648 ∧
    (MakeSignatureFromString happyScript.engine bigData (World.fresh 0)).1
      = .ret ([170, 187], none) ∧
    (callsSince (World.fresh 0)
      (MakeSignatureFromString happyScript.engine bigData (World.fresh 0)).2).filter
        Call.isSign
      = [.SignBufferEx 1 bigData 0 [] 0 1 ⟨160, [], 2⟩,
         .SignBufferEx 1 bigData (-2147483648) [0, 0] 2 1 ⟨0, [170, 187], 2⟩] := by
  have hc : toCInt (bigData.length : Int) = -2147483648 := by
    rw [bigData_length]
    decide
  refine ⟨by rw [bigData_length]; rfl, (make_happy bigData).1, ?_⟩
  rw [(make_happy bigData).2, hc]

/-! ## Status codes in error messages (C10) -/

set_option maxRecDepth 8000

/-- C10, as the code has it: when the size probe fails with a status `s` other
than 0 and 160, `MakeSignatureFromString` returns an error whose message
contains the decimal text of `s`. -/
theorem C10_probe_error_carries_status {σ : Type} (E : Engine σ) (text : List Byte)
    (w : World σ) (s : Int)
    (hprobe : probeStatus (callsSince w (MakeSignatureFromString E text w).2) = some s)
    (h0 : s ≠ 0) (h160 : s ≠ 160) :
    ∃ e, (MakeSignatureFromString E text w).1 = .ret ([], some e) ∧
      (fmtInt s).data <:+: e.Error.data := by
  have h := make_run E text w
  generalize (MakeSignatureFromString E text w).1 = out at h ⊢
  generalize callsSince w (MakeSignatureFromString E text w).2 = evs at h hprobe ⊢
  have hmsg : (fmtInt s).data <:+: (probeError s).Error.data :=
    ⟨"Failed to calculate buffer size: error - ".data,
      ": ".data ++ "external call SignBufferEx error".data,
      by simp [probeError, GoError.Error, String.data_append]⟩
  cases h <;>
    simp [probeStatus, signSetup, Call.signStatus] at hprobe <;>
    subst hprobe <;> first | exact ⟨_, rfl, hmsg⟩ | omega

/-- C10 witness: a probe that fails with status 7 yields a message containing `7`. -/
theorem C10_probe_error_carries_status_witness :
    ∃ e, (MakeSignatureFromString badProbeScript.engine [1, 2, 3] (World.fresh 0)).1
        = .ret ([], some e) ∧
      (fmtInt 7).data <:+: e.Error.data :=
  C10_probe_error_carries_status badProbeScript.engine [1, 2, 3] (World.fresh 0) 7 rfl
    (by decide) (by decide)

/-- C10 counterexample: the second `SignBufferEx` call fails with status 7 and
`CheckBufferSignEx` fails with status 7; each call returns an error whose
message does not contain `7`. -/
theorem C10_status_absent_from_later_errors :
    (Call.SignBufferEx 1 [1, 2, 3] 3 [0, 0] 2 1 ⟨7, [], 0⟩ ∈
        (MakeSignatureFromString secondFailsScript.engine [1, 2, 3] (World.fresh 0)).2.trace ∧
      (MakeSignatureFromString secondFailsScript.engine [1, 2, 3] (World.fresh 0)).1
        = .ret ([], some secondError) ∧
      secondError.Error
        = "Failed to retrieve signature out of context: external call SignBufferEx" ∧
      ¬ (fmtInt 7).data <:+: secondError.Error.data) ∧
    (Call.CheckBufferSignEx 1 [170, 187] 2 [1, 2, 3] 3 7 ∈
        (CheckSignatureByString checkFailsScript.engine [1, 2, 3] [170, 187]
          (World.fresh 0)).2.trace ∧
      (CheckSignatureByString checkFailsScript.engine [1, 2, 3] [170, 187]
        (World.fresh 0)).1 = (false, some checkError) ∧
      checkError.Error
        = "Failed to check signature out of context: external call CheckBufferSignEx" ∧
      ¬ (fmtInt 7).data <:+: checkError.Error.data) := by
  refine ⟨⟨?_, rfl, ?_, ?_⟩, ⟨?_, rfl, ?_, ?_⟩⟩
  · decide
  · decide
  · decide
  · decide
  · decide
  · decide

end Gost
